import Mathlib

/-!
Verification of the message sender in app/static/js/main.js.

The script reads the value of the input element with id message, POSTs it as
JSON to /api/chat, parses the reply as JSON, and writes the response field
into the element with id response, falling back to a fixed error string when
the fetch rejects or the body fails to parse.
-/

namespace GeminiChatbot

/-- JSON values as produced by a successful JSON.parse of a response body.
Numbers are restricted to integers; the claims under study never exercise
numeric payloads, and JS float formatting is outside the embedding. An
object is the post-parse field list (JSON.parse keeps one binding per key). -/
inductive JsonVal : Type
  | null : JsonVal
  | bool : Bool → JsonVal
  | num : Int → JsonVal
  | str : String → JsonVal
  | arr : List JsonVal → JsonVal
  | obj : List (String × JsonVal) → JsonVal

/-- First-match association lookup over the fields of a parsed JSON object. -/
def lookupField : List (String × JsonVal) → String → Option JsonVal
  | [], _ => none
  | (k, v) :: rest, key => if k = key then some v else lookupField rest key

/-- JS property read on a value: on the null value it throws a TypeError
(error), on an object it yields the field or the undefined value (none),
and on any other value it yields the undefined value. -/
def getProp : JsonVal → String → Except Unit (Option JsonVal)
  | JsonVal.null, _ => Except.error ()
  | JsonVal.obj fs, k => Except.ok (lookupField fs k)
  | _, _ => Except.ok none

mutual

/-- JS ToString on a parsed JSON value, as applied by a DOMString conversion. -/
def jsToString : JsonVal → String
  | JsonVal.null => "null"
  | JsonVal.bool true => "true"
  | JsonVal.bool false => "false"
  | JsonVal.num n => toString n
  | JsonVal.str s => s
  | JsonVal.arr xs => jsArrToString xs
  | JsonVal.obj _ => "[object Object]"

/-- Array toString joins elements with commas; a null element becomes the
empty string inside the join. -/
def jsArrToString : List JsonVal → String
  | [] => ""
  | [x] =>
    match x with
    | JsonVal.null => ""
    | x => jsToString x
  | x :: y :: rest =>
    (match x with
     | JsonVal.null => ""
     | x => jsToString x) ++ "," ++ jsArrToString (y :: rest)

end

/-- A DOM element, restricted to the two properties the script touches. -/
structure Elem where
  value : String
  innerText : String
  deriving DecidableEq

/-- The document maps an element id to the element carrying it, if any. -/
structure Document where
  elems : String → Option Elem

/-- Assignment to the innerText property of the element with the given id. -/
def setInnerText (doc : Document) (targetId : String) (s : String) : Document :=
  Document.mk fun i =>
    if i = targetId then Option.map (fun e => Elem.mk e.value s) (doc.elems i)
    else doc.elems i

/-- DOMString conversion applied by the innerText setter: the undefined value
(none) prints as the string undefined, the null value becomes the empty
string (LegacyNullToEmptyString), every other value goes through JS ToString. -/
def innerTextString : Option JsonVal → String
  | none => "undefined"
  | some JsonVal.null => ""
  | some v => jsToString v

/-- The request assembled by sendMessage. The body field holds the JSON value
serialized by JSON.stringify; the claims speak of the body parsed back as
JSON, so the embedding keeps the structured value. -/
structure Request where
  url : String
  method : String
  contentType : String
  body : JsonVal

/-- The request the script builds for a given input text. -/
def mkRequest (message : String) : Request :=
  Request.mk "/api/chat" "POST" "application/json"
    (JsonVal.obj [("message", JsonVal.str message)])

/-- Outcome of awaiting res.json(): the body either is not valid JSON or
parses to a value. -/
inductive JsonParse : Type
  | invalid : JsonParse
  | ok : JsonVal → JsonParse

/-- Behavior of fetch for one request: the promise rejects (network error)
or resolves with a status code and a body. -/
inductive FetchResult : Type
  | networkError : FetchResult
  | response : Nat → JsonParse → FetchResult

/-- The fixed fallback string written by the catch block. -/
def errMsg : String := "An error occurred while sending the message."

/-- The string the try block writes on its success path: none when the fetch
rejects, when the body is not valid JSON, or when the property read throws
(data being the null value); in those cases control moves to the catch block. -/
def tryOutcome (server : Request → FetchResult) (message : String) : Option String :=
  match server (mkRequest message) with
  | FetchResult.networkError => none
  | FetchResult.response _ JsonParse.invalid => none
  | FetchResult.response _ (JsonParse.ok data) =>
    match getProp data "response" with
    | Except.error _ => none
    | Except.ok prop => some (innerTextString prop)

/-- Result of one sendMessage call: whether the async function rejected with
an uncaught exception, the final document, and the requests issued. -/
structure Outcome where
  threw : Bool
  doc : Document
  requests : List Request

/-- Shallow embedding of sendMessage from app/static/js/main.js. Reading the
value property on a missing input element throws before the try block, with
no request issued. When the output element is missing, the innerText
assignment throws inside try and the assignment in catch throws again, so
the call rejects with the document untouched; the fetch has already been
issued at that point. Otherwise the try block either writes the converted
response field or control reaches catch, which writes the fixed error string. -/
def sendMessage (server : Request → FetchResult) (doc : Document) : Outcome :=
  match doc.elems "message" with
  | none => Outcome.mk true doc []
  | some messageInput =>
    let req := mkRequest messageInput.value
    match doc.elems "response" with
    | none => Outcome.mk true doc [req]
    | some _ =>
      match tryOutcome server messageInput.value with
      | some s => Outcome.mk false (setInnerText doc "response" s) [req]
      | none => Outcome.mk false (setInnerText doc "response" errMsg) [req]

/-- Text content currently displayed in the output element. -/
def responseText (doc : Document) : Option String :=
  Option.map Elem.innerText (doc.elems "response")

/-- Two fetch behaviors that agree on rejection and on the body, and may
differ only in the status code. -/
def sameBody (r1 r2 : FetchResult) : Prop :=
  match r1, r2 with
  | FetchResult.networkError, FetchResult.networkError => True
  | FetchResult.response _ b1, FetchResult.response _ b2 => b1 = b2
  | _, _ => False

theorem elems_setInnerText_ne (doc : Document) (targetId s i : String)
    (h : i ≠ targetId) : (setInnerText doc targetId s).elems i = doc.elems i := by
  simp [setInnerText, h]

theorem elems_setInnerText_self (doc : Document) (targetId s : String) :
    (setInnerText doc targetId s).elems targetId
      = Option.map (fun e => Elem.mk e.value s) (doc.elems targetId) := by
  simp [setInnerText]

theorem value_setInnerText (doc : Document) (targetId s : String) :
    Option.map Elem.value ((setInnerText doc targetId s).elems targetId)
      = Option.map Elem.value (doc.elems targetId) := by
  rw [elems_setInnerText_self]
  cases doc.elems targetId <;> rfl

theorem isSome_setInnerText (doc : Document) (targetId s : String) :
    ((setInnerText doc targetId s).elems targetId).isSome
      = (doc.elems targetId).isSome := by
  rw [elems_setInnerText_self]
  cases doc.elems targetId <;> rfl

theorem responseText_setInnerText (doc : Document) (ra : Elem) (s : String)
    (hr : doc.elems "response" = some ra) :
    responseText (setInnerText doc "response" s) = some s := by
  unfold responseText
  rw [elems_setInnerText_self, hr]
  rfl

theorem sendMessage_no_input (server : Request → FetchResult) (doc : Document)
    (hm : doc.elems "message" = none) :
    sendMessage server doc = Outcome.mk true doc [] := by
  unfold sendMessage
  rw [hm]

theorem sendMessage_no_output (server : Request → FetchResult) (doc : Document)
    (mi : Elem) (hm : doc.elems "message" = some mi)
    (hr : doc.elems "response" = none) :
    sendMessage server doc = Outcome.mk true doc [mkRequest mi.value] := by
  unfold sendMessage
  rw [hm, hr]

theorem sendMessage_of_elems (server : Request → FetchResult) (doc : Document)
    (mi ra : Elem) (hm : doc.elems "message" = some mi)
    (hr : doc.elems "response" = some ra) :
    sendMessage server doc
      = Outcome.mk false
          (setInnerText doc "response" ((tryOutcome server mi.value).getD errMsg))
          [mkRequest mi.value] := by
  have h1 : sendMessage server doc
      = (match tryOutcome server mi.value with
         | some s => Outcome.mk false (setInnerText doc "response" s) [mkRequest mi.value]
         | none => Outcome.mk false (setInnerText doc "response" errMsg) [mkRequest mi.value]) := by
    unfold sendMessage
    rw [hm, hr]
  rw [h1]
  cases tryOutcome server mi.value <;> rfl

theorem tryOutcome_networkError (server : Request → FetchResult) (message : String)
    (hs : server (mkRequest message) = FetchResult.networkError) :
    tryOutcome server message = none := by
  unfold tryOutcome
  rw [hs]

theorem tryOutcome_invalid (server : Request → FetchResult) (message : String)
    (st : Nat)
    (hs : server (mkRequest message) = FetchResult.response st JsonParse.invalid) :
    tryOutcome server message = none := by
  unfold tryOutcome
  rw [hs]

theorem tryOutcome_ok (server : Request → FetchResult) (message : String)
    (st : Nat) (data : JsonVal) (prop : Option JsonVal)
    (hs : server (mkRequest message) = FetchResult.response st (JsonParse.ok data))
    (hp : getProp data "response" = Except.ok prop) :
    tryOutcome server message = some (innerTextString prop) := by
  have h1 : tryOutcome server message
      = (match getProp data "response" with
         | Except.error _ => none
         | Except.ok p => some (innerTextString p)) := by
    unfold tryOutcome
    rw [hs]
  rw [h1, hp]

theorem tryOutcome_congr (server1 server2 : Request → FetchResult) (message : String)
    (hb : sameBody (server1 (mkRequest message)) (server2 (mkRequest message))) :
    tryOutcome server1 message = tryOutcome server2 message := by
  unfold tryOutcome
  cases h1 : server1 (mkRequest message) with
  | networkError =>
    cases h2 : server2 (mkRequest message) with
    | networkError => rfl
    | response st2 b2 =>
      rw [h1, h2] at hb
      exact False.elim hb
  | response st1 b1 =>
    cases h2 : server2 (mkRequest message) with
    | networkError =>
      rw [h1, h2] at hb
      exact False.elim hb
    | response st2 b2 =>
      rw [h1, h2] at hb
      have hb2 : b1 = b2 := hb
      subst hb2
      cases b1 <;> rfl

/-- Success path shared by several claims: both elements exist, the reply
carries a parseable object body, and the response field holds a string, so
the call completes and displays that string. -/
theorem sendMessage_displays_field (server : Request → FetchResult) (doc : Document)
    (mi ra : Elem) (st : Nat) (fs : List (String × JsonVal)) (s : String)
    (hm : doc.elems "message" = some mi) (hr : doc.elems "response" = some ra)
    (hs : server (mkRequest mi.value)
      = FetchResult.response st (JsonParse.ok (JsonVal.obj fs)))
    (hf : lookupField fs "response" = some (JsonVal.str s)) :
    (sendMessage server doc).threw = false
      ∧ responseText (sendMessage server doc).doc = some s := by
  have hp : getProp (JsonVal.obj fs) "response" = Except.ok (some (JsonVal.str s)) := by
    rw [show getProp (JsonVal.obj fs) "response"
        = Except.ok (lookupField fs "response") from rfl, hf]
  have htry : tryOutcome server mi.value = some s :=
    tryOutcome_ok server mi.value st (JsonVal.obj fs) (some (JsonVal.str s)) hs hp
  have hsend := sendMessage_of_elems server doc mi ra hm hr
  refine ⟨congrArg Outcome.threw hsend, ?_⟩
  have hdoc := congrArg Outcome.doc hsend
  rw [hdoc, htry]
  exact responseText_setInnerText doc ra s hr

/-- C1: for every text value present in the input field at invocation, one
call to sendMessage issues exactly one POST request to the endpoint
/api/chat, with content type application/json, whose JSON body is the
one-field object mapping message to that exact text. -/
theorem spec_C1 (server : Request → FetchResult) (doc : Document) (mi : Elem)
    (hm : doc.elems "message" = some mi) :
    (sendMessage server doc).requests = [mkRequest mi.value]
      ∧ mkRequest mi.value
        = Request.mk "/api/chat" "POST" "application/json"
            (JsonVal.obj [("message", JsonVal.str mi.value)]) := by
  refine ⟨?_, rfl⟩
  cases hr : doc.elems "response" with
  | none => exact congrArg Outcome.requests (sendMessage_no_output server doc mi hm hr)
  | some ra => exact congrArg Outcome.requests (sendMessage_of_elems server doc mi ra hm hr)

/-- C2: for every server reply whose body parses as JSON to an object with a
string field named response, sendMessage completes without throwing and the
output element text content equals exactly that field value. -/
theorem spec_C2 (server : Request → FetchResult) (doc : Document)
    (mi ra : Elem) (st : Nat) (fs : List (String × JsonVal)) (s : String)
    (hm : doc.elems "message" = some mi) (hr : doc.elems "response" = some ra)
    (hs : server (mkRequest mi.value)
      = FetchResult.response st (JsonParse.ok (JsonVal.obj fs)))
    (hf : lookupField fs "response" = some (JsonVal.str s)) :
    (sendMessage server doc).threw = false
      ∧ responseText (sendMessage server doc).doc = some s :=
  sendMessage_displays_field server doc mi ra st fs s hm hr hs hf

/-- C3: for every failure during the network call (rejected fetch) or during
JSON parsing of the reply body, sendMessage completes and sets the output
element text content to the single fixed error string, with no distinction
between the failure kinds. -/
theorem spec_C3 (server : Request → FetchResult) (doc : Document) (mi ra : Elem)
    (hm : doc.elems "message" = some mi) (hr : doc.elems "response" = some ra)
    (hfail : server (mkRequest mi.value) = FetchResult.networkError
      ∨ ∃ st, server (mkRequest mi.value) = FetchResult.response st JsonParse.invalid) :
    (sendMessage server doc).threw = false
      ∧ responseText (sendMessage server doc).doc = some errMsg := by
  have htry : tryOutcome server mi.value = none := by
    cases hfail with
    | inl h => exact tryOutcome_networkError server mi.value h
    | inr h =>
      obtain ⟨st, h⟩ := h
      exact tryOutcome_invalid server mi.value st h
  have hsend := sendMessage_of_elems server doc mi ra hm hr
  refine ⟨congrArg Outcome.threw hsend, ?_⟩
  have hdoc := congrArg Outcome.doc hsend
  rw [hdoc, htry]
  exact responseText_setInnerText doc ra errMsg hr

/-- C4: when the input field value is the empty string, sendMessage still
issues the POST request, whose JSON body maps message to the empty string;
no validation short-circuits the network call. -/
theorem spec_C4 (server : Request → FetchResult) (doc : Document) (mi : Elem)
    (hm : doc.elems "message" = some mi) (hv : mi.value = "") :
    (sendMessage server doc).requests = [mkRequest ""]
      ∧ (mkRequest "").body = JsonVal.obj [("message", JsonVal.str "")] := by
  refine ⟨?_, rfl⟩
  rw [← hv]
  cases hr : doc.elems "response" with
  | none => exact congrArg Outcome.requests (sendMessage_no_output server doc mi hm hr)
  | some ra => exact congrArg Outcome.requests (sendMessage_of_elems server doc mi ra hm hr)

/-- C5: no branch of sendMessage inspects the HTTP status code: two fetch
behaviors that differ only in status codes yield identical outcomes, and a
reply of any status whose body parses to an object with a string response
field is treated as success, the field being extracted and displayed. -/
theorem spec_C5 (doc : Document) (server1 server2 : Request → FetchResult)
    (hb : ∀ r, sameBody (server1 r) (server2 r)) :
    sendMessage server1 doc = sendMessage server2 doc
      ∧ ∀ (mi ra : Elem) (st : Nat) (fs : List (String × JsonVal)) (s : String),
          doc.elems "message" = some mi → doc.elems "response" = some ra →
          server1 (mkRequest mi.value)
            = FetchResult.response st (JsonParse.ok (JsonVal.obj fs)) →
          lookupField fs "response" = some (JsonVal.str s) →
          (sendMessage server1 doc).threw = false
            ∧ responseText (sendMessage server1 doc).doc = some s := by
  constructor
  · cases hm : doc.elems "message" with
    | none =>
      rw [sendMessage_no_input server1 doc hm, sendMessage_no_input server2 doc hm]
    | some mi =>
      cases hr : doc.elems "response" with
      | none =>
        rw [sendMessage_no_output server1 doc mi hm hr,
            sendMessage_no_output server2 doc mi hm hr]
      | some ra =>
        rw [sendMessage_of_elems server1 doc mi ra hm hr,
            sendMessage_of_elems server2 doc mi ra hm hr,
            tryOutcome_congr server1 server2 mi.value (hb (mkRequest mi.value))]
  · intro mi ra st fs s hm hr hs hf
    exact sendMessage_displays_field server1 doc mi ra st fs s hm hr hs hf

/-- C6 (amended): when the server reply parses as JSON to an object with no
response field, the property read yields the JS undefined value, and the
innerText setter renders it as the string undefined; the output element text
content becomes the string undefined, not the empty string. -/
theorem spec_C6 (server : Request → FetchResult) (doc : Document)
    (mi ra : Elem) (st : Nat) (fs : List (String × JsonVal))
    (hm : doc.elems "message" = some mi) (hr : doc.elems "response" = some ra)
    (hs : server (mkRequest mi.value)
      = FetchResult.response st (JsonParse.ok (JsonVal.obj fs)))
    (hf : lookupField fs "response" = none) :
    (sendMessage server doc).threw = false
      ∧ responseText (sendMessage server doc).doc = some "undefined" := by
  have hp : getProp (JsonVal.obj fs) "response" = Except.ok none := by
    rw [show getProp (JsonVal.obj fs) "response"
        = Except.ok (lookupField fs "response") from rfl, hf]
  have htry : tryOutcome server mi.value = some "undefined" :=
    tryOutcome_ok server mi.value st (JsonVal.obj fs) none hs hp
  have hsend := sendMessage_of_elems server doc mi ra hm hr
  refine ⟨congrArg Outcome.threw hsend, ?_⟩
  have hdoc := congrArg Outcome.doc hsend
  rw [hdoc, htry]
  exact responseText_setInnerText doc ra "undefined" hr

/-- The final document is either untouched or the result of one innerText
assignment to the response element, and at most one request is issued. -/
theorem sendMessage_doc_shape (server : Request → FetchResult) (doc : Document) :
    ((sendMessage server doc).doc = doc
      ∨ ∃ s, (sendMessage server doc).doc = setInnerText doc "response" s)
      ∧ (sendMessage server doc).requests.length ≤ 1 := by
  cases hm : doc.elems "message" with
  | none =>
    have h1 := sendMessage_no_input server doc hm
    constructor
    · exact Or.inl (congrArg Outcome.doc h1)
    · have h2 : (sendMessage server doc).requests = [] := congrArg Outcome.requests h1
      rw [h2]
      exact Nat.zero_le 1
  | some mi =>
    cases hr : doc.elems "response" with
    | none =>
      have h1 := sendMessage_no_output server doc mi hm hr
      constructor
      · exact Or.inl (congrArg Outcome.doc h1)
      · have h2 : (sendMessage server doc).requests = [mkRequest mi.value] :=
          congrArg Outcome.requests h1
        rw [h2]
        exact Nat.le_refl 1
    | some ra =>
      have h1 := sendMessage_of_elems server doc mi ra hm hr
      constructor
      · exact Or.inr ⟨(tryOutcome server mi.value).getD errMsg, congrArg Outcome.doc h1⟩
      · have h2 : (sendMessage server doc).requests = [mkRequest mi.value] :=
          congrArg Outcome.requests h1
        rw [h2]
        exact Nat.le_refl 1

/-- C7: the only document mutation sendMessage performs is to the innerText
of the element with id response: every element under another id is
unchanged, the value property and the existence of the response element are
unchanged, and at most one request is issued. -/
theorem spec_C7 (server : Request → FetchResult) (doc : Document) :
    (∀ i, i ≠ "response" → (sendMessage server doc).doc.elems i = doc.elems i)
      ∧ Option.map Elem.value ((sendMessage server doc).doc.elems "response")
          = Option.map Elem.value (doc.elems "response")
      ∧ ((sendMessage server doc).doc.elems "response").isSome
          = (doc.elems "response").isSome
      ∧ (sendMessage server doc).requests.length ≤ 1 := by
  obtain ⟨hdoc, hreq⟩ := sendMessage_doc_shape server doc
  cases hdoc with
  | inl h =>
    rw [h]
    exact ⟨fun i _ => rfl, rfl, rfl, hreq⟩
  | inr h =>
    obtain ⟨s, h⟩ := h
    rw [h]
    exact ⟨fun i hi => elems_setInnerText_ne doc "response" s i hi,
      value_setInnerText doc "response" s,
      isSome_setInnerText doc "response" s, hreq⟩

/-- C8: invoking sendMessage a second time, starting from the document the
first call produced, with the same fetch behavior, displays the same final
text: the operation is deterministic and accumulates no state beyond the
overwritten display element. -/
theorem spec_C8 (server : Request → FetchResult) (doc : Document) :
    responseText (sendMessage server (sendMessage server doc).doc).doc
      = responseText (sendMessage server doc).doc := by
  cases hm : doc.elems "message" with
  | none =>
    have h1 := sendMessage_no_input server doc hm
    rw [h1]
    show responseText (sendMessage server doc).doc = responseText doc
    rw [h1]
  | some mi =>
    cases hr : doc.elems "response" with
    | none =>
      have h1 := sendMessage_no_output server doc mi hm hr
      rw [h1]
      show responseText (sendMessage server doc).doc = responseText doc
      rw [h1]
    | some ra =>
      have h1 := sendMessage_of_elems server doc mi ra hm hr
      have hm2 : (setInnerText doc "response"
          ((tryOutcome server mi.value).getD errMsg)).elems "message" = some mi := by
        rw [elems_setInnerText_ne doc "response" _ "message" (by decide)]
        exact hm
      have hr2 : (setInnerText doc "response"
          ((tryOutcome server mi.value).getD errMsg)).elems "response"
            = some (Elem.mk ra.value ((tryOutcome server mi.value).getD errMsg)) := by
        rw [elems_setInnerText_self, hr]
        rfl
      have h2 := sendMessage_of_elems server
        (setInnerText doc "response" ((tryOutcome server mi.value).getD errMsg))
        mi (Elem.mk ra.value ((tryOutcome server mi.value).getD errMsg)) hm2 hr2
      rw [h1]
      show responseText (sendMessage server
          (setInnerText doc "response" ((tryOutcome server mi.value).getD errMsg))).doc
        = responseText (setInnerText doc "response"
            ((tryOutcome server mi.value).getD errMsg))
      rw [h2]
      show responseText (setInnerText
          (setInnerText doc "response" ((tryOutcome server mi.value).getD errMsg))
          "response" ((tryOutcome server mi.value).getD errMsg))
        = responseText (setInnerText doc "response"
            ((tryOutcome server mi.value).getD errMsg))
      rw [responseText_setInnerText _ (Elem.mk ra.value _) _ hr2,
          responseText_setInnerText doc ra _ hr]

/-- C9: whenever both the input element and the output element exist,
sendMessage never rejects with an uncaught exception: it completes with the
output element overwritten either with the display of the server response
field (the try path) or with the fixed error string (the catch path). -/
theorem spec_C9 (server : Request → FetchResult) (doc : Document) (mi ra : Elem)
    (hm : doc.elems "message" = some mi) (hr : doc.elems "response" = some ra) :
    (sendMessage server doc).threw = false
      ∧ ∃ s, (sendMessage server doc).doc = setInnerText doc "response" s
          ∧ (s = errMsg ∨ tryOutcome server mi.value = some s) := by
  have h1 := sendMessage_of_elems server doc mi ra hm hr
  refine ⟨congrArg Outcome.threw h1, ?_⟩
  have hdoc := congrArg Outcome.doc h1
  cases htry : tryOutcome server mi.value with
  | none =>
    refine ⟨errMsg, ?_, Or.inl rfl⟩
    rw [htry] at hdoc
    exact hdoc
  | some s =>
    refine ⟨s, ?_, Or.inr rfl⟩
    rw [htry] at hdoc
    exact hdoc

/-- C10: when the input element with id message does not exist, sendMessage
throws before the try block is entered: the call rejects, no request is ever
issued, and the document, in particular the output element text content, is
unchanged. -/
theorem spec_C10 (server : Request → FetchResult) (doc : Document)
    (hm : doc.elems "message" = none) :
    (sendMessage server doc).threw = true
      ∧ (sendMessage server doc).requests = []
      ∧ (sendMessage server doc).doc = doc := by
  have h1 := sendMessage_no_input server doc hm
  exact ⟨congrArg Outcome.threw h1, congrArg Outcome.requests h1,
    congrArg Outcome.doc h1⟩

/-- A page holding both elements, the input carrying the text hi. -/
def doc0 : Document :=
  Document.mk fun i =>
    if i = "message" then some (Elem.mk "hi" "")
    else if i = "response" then some (Elem.mk "" "idle") else none

/-- A page holding both elements, the input field empty. -/
def docEmptyMsg : Document :=
  Document.mk fun i =>
    if i = "message" then some (Elem.mk "" "")
    else if i = "response" then some (Elem.mk "" "idle") else none

/-- A page with the output element only: the input lookup yields none. -/
def docNoInput : Document :=
  Document.mk fun i =>
    if i = "response" then some (Elem.mk "" "idle") else none

/-- A reply body carrying a response field with the string hello. -/
def bodyHello : JsonParse :=
  JsonParse.ok (JsonVal.obj [("response", JsonVal.str "hello")])

/-- A server answering every request with status 200 and the hello body. -/
def serverHello : Request → FetchResult :=
  fun _ => FetchResult.response 200 bodyHello

/-- The same body under status 500. -/
def serverHello500 : Request → FetchResult :=
  fun _ => FetchResult.response 500 bodyHello

/-- A server whose fetch promise always rejects. -/
def serverDown : Request → FetchResult :=
  fun _ => FetchResult.networkError

/-- A server answering with a JSON object that has no response field. -/
def serverNoField : Request → FetchResult :=
  fun _ => FetchResult.response 200 (JsonParse.ok (JsonVal.obj [("ok", JsonVal.bool true)]))

/-- C6 counterexample: with a parseable object reply lacking a response
field, the output element text content becomes the string undefined and in
particular does not end up empty, against the claim as stated. -/
theorem spec_C6_cex :
    responseText (sendMessage serverNoField doc0).doc = some "undefined"
      ∧ ¬ responseText (sendMessage serverNoField doc0).doc = some "" := by
  decide

theorem spec_C1_witness :
    (sendMessage serverHello doc0).requests = [mkRequest "hi"]
      ∧ mkRequest "hi"
        = Request.mk "/api/chat" "POST" "application/json"
            (JsonVal.obj [("message", JsonVal.str "hi")]) :=
  spec_C1 serverHello doc0 (Elem.mk "hi" "") rfl

theorem spec_C2_witness :
    (sendMessage serverHello doc0).threw = false
      ∧ responseText (sendMessage serverHello doc0).doc = some "hello" :=
  spec_C2 serverHello doc0 (Elem.mk "hi" "") (Elem.mk "" "idle") 200
    [("response", JsonVal.str "hello")] "hello" rfl rfl rfl rfl

theorem spec_C3_witness :
    (sendMessage serverDown doc0).threw = false
      ∧ responseText (sendMessage serverDown doc0).doc = some errMsg :=
  spec_C3 serverDown doc0 (Elem.mk "hi" "") (Elem.mk "" "idle") rfl rfl (Or.inl rfl)

theorem spec_C4_witness :
    (sendMessage serverHello docEmptyMsg).requests = [mkRequest ""]
      ∧ (mkRequest "").body = JsonVal.obj [("message", JsonVal.str "")] :=
  spec_C4 serverHello docEmptyMsg (Elem.mk "" "") rfl rfl

theorem spec_C5_witness :
    sendMessage serverHello doc0 = sendMessage serverHello500 doc0
      ∧ (sendMessage serverHello doc0).threw = false
      ∧ responseText (sendMessage serverHello doc0).doc = some "hello" :=
  ⟨(spec_C5 doc0 serverHello serverHello500 (fun _ => rfl)).1,
    (spec_C5 doc0 serverHello serverHello500 (fun _ => rfl)).2
      (Elem.mk "hi" "") (Elem.mk "" "idle") 200
      [("response", JsonVal.str "hello")] "hello" rfl rfl rfl rfl⟩

theorem spec_C6_witness :
    (sendMessage serverNoField doc0).threw = false
      ∧ responseText (sendMessage serverNoField doc0).doc = some "undefined" :=
  spec_C6 serverNoField doc0 (Elem.mk "hi" "") (Elem.mk "" "idle") 200
    [("ok", JsonVal.bool true)] rfl rfl rfl rfl

theorem spec_C7_witness :
    (sendMessage serverHello doc0).doc.elems "title" = doc0.elems "title"
      ∧ Option.map Elem.value ((sendMessage serverHello doc0).doc.elems "response")
          = Option.map Elem.value (doc0.elems "response")
      ∧ ((sendMessage serverHello doc0).doc.elems "response").isSome
          = (doc0.elems "response").isSome
      ∧ (sendMessage serverHello doc0).requests.length ≤ 1 :=
  ⟨(spec_C7 serverHello doc0).1 "title" (by decide),
    (spec_C7 serverHello doc0).2.1,
    (spec_C7 serverHello doc0).2.2.1,
    (spec_C7 serverHello doc0).2.2.2⟩

theorem spec_C9_witness :
    (sendMessage serverHello doc0).threw = false
      ∧ ∃ s, (sendMessage serverHello doc0).doc = setInnerText doc0 "response" s
          ∧ (s = errMsg ∨ tryOutcome serverHello "hi" = some s) :=
  spec_C9 serverHello doc0 (Elem.mk "hi" "") (Elem.mk "" "idle") rfl rfl

theorem spec_C10_witness :
    (sendMessage serverHello docNoInput).threw = true
      ∧ (sendMessage serverHello docNoInput).requests = []
      ∧ (sendMessage serverHello docNoInput).doc = docNoInput :=
  spec_C10 serverHello docNoInput rfl

end GeminiChatbot
